import Mathlib

/-!
# Authentication backend: `Register`, `Login` and `GenerateToken`

A shallow embedding of `models.go`, `auth.go` and `database.go`.

* The handlers of `auth.go` are functions from the store to a response and
  the store after the call (explicit state passing for the global `DB`).
* The libraries the handlers call (the gorm/sqlite store, bcrypt, golang-jwt,
  the clock) sit behind `Env`: every outcome the Go code branches on
  (a returned `error`, a found record) is an outcome of the embedding, so each
  `return` of a handler is reachable.
* The `users` table follows the gorm tags of `User`: an auto-incremented
  primary key `id` and a `unique` index on `email`.
* Ids and times are unbounded integers: the Go values (a `uint` read from an
  integer column, `int64` seconds) stay inside their ranges.
-/

namespace AuthBackend

/-! ## models.go -/

/-- `User` of models.go: `ID` is the primary key, `Email` carries the gorm tag
`unique;not null`, `Password` carries the tag `json:"-"`. -/
structure User where
  ID : Nat
  Email : String
  Password : String
  deriving DecidableEq, Repr

/-- `LoginRequest` of models.go. The `validate` tags are struct tags only. -/
structure LoginRequest where
  Email : String
  Password : String
  deriving DecidableEq, Repr

/-- `RegisterRequest` of models.go. The `validate` tags are struct tags only. -/
structure RegisterRequest where
  Email : String
  Password : String
  deriving DecidableEq, Repr

/-- `AuthResponse` of models.go. -/
structure AuthResponse where
  Token : String
  User : User
  deriving DecidableEq, Repr

/-! ## JSON values and responses -/

/-- JSON values, as far as the handlers produce them. -/
inductive JSON where
  | str (s : String)
  | num (n : Nat)
  | obj (fields : List (String × JSON))

/-- Encoding of a `User` under its `json` tags: `id`, `email`, and no entry
for `Password` (tag `json:"-"`). -/
def User.toJSON (u : User) : JSON :=
  .obj [("id", .num u.ID), ("email", .str u.Email)]

/-- Encoding of an `AuthResponse` under its `json` tags. -/
def AuthResponse.toJSON (r : AuthResponse) : JSON :=
  .obj [("token", .str r.Token), ("user", r.User.toJSON)]

/-- The value `fiber.Map` with the single key `error`. -/
def errorMap (msg : String) : JSON :=
  .obj [("error", .str msg)]

/-- What a handler leaves in the `*fiber.Ctx`: the status set by `c.Status`
(200 when it is not called) and the body written by `c.JSON`. -/
structure Response where
  status : Nat
  body : JSON

/-! ## The libraries behind the handlers -/

/-- Errors of a gorm call. -/
inductive DBError where
  | ErrRecordNotFound
  | ErrDuplicatedKey
  | ErrDriver
  deriving DecidableEq, Repr

/-- Signing methods of golang-jwt. -/
inductive SigningMethod where
  | HS256
  | HS384
  | HS512
  | RS256
  | none
  deriving DecidableEq, Repr

/-- Values stored in a `jwt.MapClaims`: a Go `uint` or an `int64`. -/
inductive ClaimValue where
  | uint (n : Nat)
  | int64 (i : Int)
  deriving DecidableEq, Repr

/-- The map `jwt.MapClaims`, as its list of entries. -/
abbrev MapClaims := List (String × ClaimValue)

/-- The value `*jwt.Token` before signing: method and claims. -/
structure Token where
  Method : SigningMethod
  Claims : MapClaims
  deriving DecidableEq, Repr

/-- Outcomes of the library calls made during one handler call.
`now` is the reading of `time.Now()` in nanoseconds since the Unix epoch;
`queryErr` and `createErr` say whether the SELECT resp. the INSERT comes back
with a driver error; the remaining fields are bcrypt and the signer. -/
structure Env where
  now : Int
  queryErr : Bool
  createErr : Bool
  GenerateFromPassword : String → Nat → Except String String
  CompareHashAndPassword : String → String → Except String Unit
  SignedString : Token → String → Except String String

/-- The table `users` behind the global `DB` of database.go. -/
structure Database where
  users : List User
  deriving DecidableEq, Repr

/-- The store right after `InitDatabase` on a fresh file: migrated, no rows. -/
def InitDatabase : Database :=
  { users := [] }

/-- The row with the least primary key: `ORDER BY id LIMIT 1`. -/
def firstByID : List User → Option User
  | [] => Option.none
  | u :: rest =>
    match firstByID rest with
    | Option.none => some u
    | some v => if v.ID < u.ID then some v else some u

/-- The call `DB.Where("email = ?", email).First(&user)`. -/
def First (env : Env) (db : Database) (email : String) : Except DBError User :=
  if env.queryErr then .error .ErrDriver
  else
    match firstByID (db.users.filter fun u => u.Email == email) with
    | Option.none => .error .ErrRecordNotFound
    | some u => .ok u

/-- The key the auto-incremented column `id` gives the next row. -/
def nextID (db : Database) : Nat :=
  (db.users.map fun u => u.ID).foldr max 0 + 1

/-- The call `DB.Create(&user)` for a `user` whose `ID` is the zero value (the
only call in the program): the INSERT fails on a driver error or on the
`unique` index of `email`, and otherwise stores the row under a fresh key,
which gorm writes back into `user`. A failed INSERT stores nothing. -/
def Create (env : Env) (db : Database) (user : User) : Except DBError (User × Database) :=
  if env.createErr then .error .ErrDriver
  else if db.users.any fun u => u.Email == user.Email then .error .ErrDuplicatedKey
  else
    let stored : User := { user with ID := nextID db }
    .ok (stored, { users := db.users ++ [stored] })

/-! ## auth.go -/

/-- The signing key `jwtSecret` of auth.go. -/
def jwtSecret : String := "your-secret-key"

/-- The duration `time.Hour`, in nanoseconds. -/
def Hour : Int := 3600 * 1000000000

/-- The method `Time.Add`. -/
def Time.Add (t d : Int) : Int := t + d

/-- The method `Time.Unix`: whole seconds since the epoch. -/
def Time.Unix (t : Int) : Int := t / 1000000000

/-- The constant `bcrypt.DefaultCost`. -/
def DefaultCost : Nat := 10

/-- The function `jwt.NewWithClaims`. -/
def NewWithClaims (method : SigningMethod) (claims : MapClaims) : Token :=
  { Method := method, Claims := claims }

/-- The claims `GenerateToken` builds for `userID` at clock reading `now`. -/
def tokenClaims (now : Int) (userID : Nat) : MapClaims :=
  [("user_id", .uint userID), ("exp", .int64 (Time.Unix (Time.Add now (Hour * 72))))]

/-- `GenerateToken` of auth.go. -/
def GenerateToken (env : Env) (userID : Nat) : Except String String :=
  let claims := tokenClaims env.now userID
  let token := NewWithClaims .HS256 claims
  env.SignedString token jwtSecret

/-- `HashPassword` of auth.go. -/
def HashPassword (env : Env) (password : String) : Except String String :=
  env.GenerateFromPassword password DefaultCost

/-- `CheckPassword` of auth.go. -/
def CheckPassword (env : Env) (hashedPassword password : String) : Except String Unit :=
  env.CompareHashAndPassword hashedPassword password

/-- `Register` of auth.go. `body` is the outcome of `c.BodyParser(&req)`, which
decodes the request body into the struct and runs no validation. -/
def Register (env : Env) (db : Database) (body : Except String RegisterRequest) :
    Response × Database :=
  match body with
  | .error _ => ({ status := 400, body := errorMap "Invalid request body" }, db)
  | .ok req =>
    match First env db req.Email with
    | .ok _ => ({ status := 409, body := errorMap "User already exists" }, db)
    | .error _ =>
      match HashPassword env req.Password with
      | .error _ => ({ status := 500, body := errorMap "Failed to hash password" }, db)
      | .ok hashedPassword =>
        match Create env db { ID := 0, Email := req.Email, Password := hashedPassword } with
        | .error _ => ({ status := 500, body := errorMap "Failed to create user" }, db)
        | .ok (user, db') =>
          match GenerateToken env user.ID with
          | .error _ =>
            ({ status := 500, body := errorMap "Failed to generate token" }, db')
          | .ok token =>
            ({ status := 201,
               body := AuthResponse.toJSON { Token := token, User := user } }, db')

/-- `Login` of auth.go. `body` is the outcome of `c.BodyParser(&req)`. The
handler never writes to the store. -/
def Login (env : Env) (db : Database) (body : Except String LoginRequest) :
    Response × Database :=
  match body with
  | .error _ => ({ status := 400, body := errorMap "Invalid request body" }, db)
  | .ok req =>
    match First env db req.Email with
    | .error err =>
      if err = .ErrRecordNotFound then
        ({ status := 401, body := errorMap "Invalid credentials" }, db)
      else
        ({ status := 500, body := errorMap "Database error" }, db)
    | .ok user =>
      match CheckPassword env user.Password req.Password with
      | .error _ => ({ status := 401, body := errorMap "Invalid credentials" }, db)
      | .ok _ =>
        match GenerateToken env user.ID with
        | .error _ =>
          ({ status := 500, body := errorMap "Failed to generate token" }, db)
        | .ok token =>
          ({ status := 200,
             body := AuthResponse.toJSON { Token := token, User := user } }, db)

/-! ## Store invariant and reachable stores -/

/-- No two rows of `users` share an email. -/
def UniqueEmails (db : Database) : Prop :=
  (db.users.map fun u => u.Email).Nodup

instance (db : Database) : Decidable (UniqueEmails db) :=
  inferInstanceAs (Decidable (db.users.map fun (u : User) => u.Email).Nodup)

/-- Stores the program can reach from the fresh store: each step is one call
of `Register` or `Login`, on any request and with any library outcomes. -/
inductive Reachable : Database → Prop where
  | init : Reachable InitDatabase
  | register (env : Env) (body : Except String RegisterRequest) {db : Database} :
      Reachable db → Reachable (Register env db body).2
  | login (env : Env) (body : Except String LoginRequest) {db : Database} :
      Reachable db → Reachable (Login env db body).2

/-! ## Token verification -/

/-- Errors of `verifyToken`. -/
inductive VerifyError where
  | Invalid
  | Expired
  deriving DecidableEq, Repr

/-- Modelled from the spec: the decoding side of the token library, which
`verifyToken` needs and no source file calls. `Parse` reads method and claims
off a compact token without checking anything; `Verify` tells whether the
token's signature is the one its method computes under the key. -/
structure Verifier where
  Parse : String → Option Token
  Verify : String → String → Bool

/-- Modelled from the spec: `verifyToken`, which auth.go does not define. It
rejects a token that does not parse, whose algorithm is not HS256 or whose
signature is invalid under the secret; only then does it read the claims, and
it rejects an expiry timestamp in the past. -/
def verifyToken (v : Verifier) (secret : String) (now : Int) (token : String) :
    Except VerifyError Nat :=
  match v.Parse token with
  | Option.none => .error .Invalid
  | some t =>
    if t.Method ≠ .HS256 then .error .Invalid
    else if v.Verify token secret = false then .error .Invalid
    else
      match t.Claims.lookup "exp", t.Claims.lookup "user_id" with
      | some (.int64 exp), some (.uint userID) =>
        if exp < Time.Unix now then .error .Expired else .ok userID
      | _, _ => .error .Invalid

/-! ## Concrete inputs -/

/-- An environment without failures: stand-ins for bcrypt (the hash is the
password behind a tag) and for the signer (a fixed compact token). -/
def sampleEnv : Env :=
  { now := 1700000000000000000
    queryErr := false
    createErr := false
    GenerateFromPassword := fun p _ => .ok ("$2a$10$" ++ p)
    CompareHashAndPassword := fun h p =>
      if h = "$2a$10$" ++ p then .ok () else .error "hashedPassword is not the hash of the given password"
    SignedString := fun _ _ => .ok "header.payload.signature" }

/-- The request of the spec's example. -/
def sampleRegister : RegisterRequest :=
  { Email := "a@x.com", Password := "secret1" }

/-- A store with one registered user. -/
def sampleDB : Database :=
  { users := [{ ID := 1, Email := "a@x.com", Password := "$2a$10$secret1" }] }

/-- The environment `sampleEnv` with a signer that returns an error. -/
def signFailEnv : Env :=
  { sampleEnv with SignedString := fun _ _ => .error "key is invalid" }

/-- The environment `sampleEnv` with a lookup that returns a driver error. -/
def queryFailEnv : Env :=
  { sampleEnv with queryErr := true }

/-- A verifier that decodes the one token `sampleEnv` signs, as issued for
user 1 at the clock reading of `sampleEnv`. -/
def sampleVerifier : Verifier :=
  { Parse := fun s =>
      if s = "header.payload.signature" then
        some (NewWithClaims .HS256 (tokenClaims 1700000000000000000 1))
      else Option.none
    Verify := fun s key => s == "header.payload.signature" && key == jwtSecret }

/-- A password of 73 bytes: longer than the 72 bytes bcrypt accepts. -/
def longPassword : String :=
  "aaaaaaaaaaaaaaaaaaaaaaaaaaaaaaaaaaaaaaaaaaaaaaaaaaaaaaaaaaaaaaaaaaaaaaaaa"

/-- The environment `sampleEnv` with the length limit of bcrypt:
`GenerateFromPassword` returns an error for a password of more than 72 bytes. -/
def bcryptLimitEnv : Env :=
  { sampleEnv with
    GenerateFromPassword := fun p _ =>
      if 72 < p.utf8ByteSize then .error "bcrypt: password length exceeds 72 bytes"
      else .ok ("$2a$10$" ++ p) }

/-! ## Store lemmas -/

theorem firstByID_eq_none {l : List User} : firstByID l = Option.none ↔ l = [] := by
  cases l with
  | nil => simp [firstByID]
  | cons u rest =>
    simp only [firstByID]
    cases firstByID rest with
    | none => simp
    | some v => by_cases h : v.ID < u.ID <;> simp [h]

theorem firstByID_mem {l : List User} {u : User} (h : firstByID l = some u) : u ∈ l := by
  induction l generalizing u with
  | nil => simp [firstByID] at h
  | cons w rest ih =>
    simp only [firstByID] at h
    cases hr : firstByID rest with
    | none =>
      rw [hr] at h
      simp only [Option.some.injEq] at h
      simp [h]
    | some v =>
      rw [hr] at h
      by_cases hlt : v.ID < w.ID
      · simp only [hlt, if_true, Option.some.injEq] at h
        subst h
        exact List.mem_cons_of_mem _ (ih hr)
      · simp only [hlt, if_false, Option.some.injEq] at h
        simp [h]

theorem First_ok {env : Env} {db : Database} {email : String} {u : User}
    (h : First env db email = .ok u) :
    env.queryErr = false ∧ u ∈ db.users ∧ u.Email = email := by
  unfold First at h
  cases hq : env.queryErr with
  | true => simp [hq] at h
  | false =>
    simp only [hq, Bool.false_eq_true, if_false] at h
    cases hf : firstByID (db.users.filter fun u => u.Email == email) with
    | none => simp [hf] at h
    | some v =>
      simp only [hf, Except.ok.injEq] at h
      subst h
      have hm := firstByID_mem hf
      simp only [List.mem_filter, beq_iff_eq] at hm
      exact ⟨rfl, hm.1, hm.2⟩

theorem First_notFound {env : Env} {db : Database} {email : String}
    (hq : env.queryErr = false) (hno : ∀ u ∈ db.users, u.Email ≠ email) :
    First env db email = .error .ErrRecordNotFound := by
  have hnil : (db.users.filter fun u => u.Email == email) = [] := by
    simp only [List.filter_eq_nil_iff, beq_iff_eq]
    exact hno
  simp [First, hq, hnil, firstByID]

theorem First_found {env : Env} {db : Database} {email : String}
    (hq : env.queryErr = false) (hex : ∃ u ∈ db.users, u.Email = email) :
    ∃ u, First env db email = .ok u := by
  obtain ⟨w, hw, hwe⟩ := hex
  cases hf : firstByID (db.users.filter fun u => u.Email == email) with
  | none =>
    rw [firstByID_eq_none] at hf
    have : w ∈ db.users.filter fun u => u.Email == email := by
      simp [List.mem_filter, hw, hwe]
    rw [hf] at this
    simp at this
  | some v => exact ⟨v, by simp [First, hq, hf]⟩

theorem First_error_of_queryErr {env : Env} (db : Database) (email : String)
    (hq : env.queryErr = true) : First env db email = .error .ErrDriver := by
  simp [First, hq]

theorem Create_ok (env : Env) (db : Database) (user : User)
    (hc : env.createErr = false) (hno : ∀ u ∈ db.users, u.Email ≠ user.Email) :
    Create env db user =
      .ok ({ user with ID := nextID db }, { users := db.users ++ [{ user with ID := nextID db }] }) := by
  have hany : (db.users.any fun u => u.Email == user.Email) = false := by
    simp only [List.any_eq_false, beq_iff_eq]
    exact hno
  simp [Create, hc, hany]

theorem Create_cases (env : Env) (db : Database) (user : User) :
    (∃ e, Create env db user = .error e) ∨
    ((∀ u ∈ db.users, u.Email ≠ user.Email) ∧
      Create env db user =
        .ok ({ user with ID := nextID db },
             { users := db.users ++ [{ user with ID := nextID db }] })) := by
  cases hc : env.createErr with
  | true => exact Or.inl ⟨.ErrDriver, by simp [Create, hc]⟩
  | false =>
    cases hany : (db.users.any fun u => u.Email == user.Email) with
    | true => exact Or.inl ⟨.ErrDuplicatedKey, by simp [Create, hc, hany]⟩
    | false =>
      have hno : ∀ u ∈ db.users, u.Email ≠ user.Email := by
        simpa only [List.any_eq_false, beq_iff_eq] using hany
      exact Or.inr ⟨hno, Create_ok env db user hc hno⟩

theorem Create_duplicate {env : Env} {db : Database} {user : User}
    (h : Create env db user = .error .ErrDuplicatedKey) :
    env.createErr = false ∧ ∃ u ∈ db.users, u.Email = user.Email := by
  unfold Create at h
  cases hc : env.createErr with
  | true => simp [hc] at h
  | false =>
    cases hany : (db.users.any fun u => u.Email == user.Email) with
    | true =>
      refine ⟨rfl, ?_⟩
      simpa only [List.any_eq_true, beq_iff_eq] using hany
    | false => simp [hc, hany] at h

theorem First_error_of_fresh (env : Env) {db : Database} {email : String}
    (hno : ∀ u ∈ db.users, u.Email ≠ email) : ∃ e, First env db email = .error e := by
  cases hq : env.queryErr with
  | true => exact ⟨.ErrDriver, First_error_of_queryErr db email hq⟩
  | false => exact ⟨.ErrRecordNotFound, First_notFound hq hno⟩

theorem First_after_insert (env : Env) (db : Database) (user : User)
    (hq : env.queryErr = false) (hno : ∀ u ∈ db.users, u.Email ≠ user.Email) :
    First env { users := db.users ++ [user] } user.Email = .ok user := by
  have hnil : (db.users.filter fun u => u.Email == user.Email) = [] := by
    simp only [List.filter_eq_nil_iff, beq_iff_eq]
    exact hno
  simp [First, hq, List.filter_append, hnil, firstByID]

/-! ## Login: the two credential failures -/

/-- C1: for every store and every Login request whose body parses, when no
user has the request's email, and when the lookup returns a user whose stored
hash `CheckPassword` rejects, the response is the same value, status 401 with
body `error: Invalid credentials`, whatever the email, the password and the
store; the store is left as it was. -/
theorem login_invalid_credentials (env : Env) (db : Database) (req : LoginRequest) :
    (env.queryErr = false → (∀ u ∈ db.users, u.Email ≠ req.Email) →
      Login env db (.ok req) =
        ({ status := 401, body := errorMap "Invalid credentials" }, db)) ∧
    (∀ user e, First env db req.Email = .ok user →
      CheckPassword env user.Password req.Password = .error e →
      Login env db (.ok req) =
        ({ status := 401, body := errorMap "Invalid credentials" }, db)) := by
  constructor
  · intro hq hno
    simp [Login, First_notFound hq hno]
  · intro user e hf hc
    simp [Login, hf, hc]

/-- The two cases of C1 on the one-user store: an unknown email and a wrong
password give the same response. -/
theorem login_invalid_credentials_witness :
    Login sampleEnv sampleDB (.ok { Email := "b@x.com", Password := "secret1" }) =
        ({ status := 401, body := errorMap "Invalid credentials" }, sampleDB) ∧
    Login sampleEnv sampleDB (.ok { Email := "a@x.com", Password := "wrong" }) =
        ({ status := 401, body := errorMap "Invalid credentials" }, sampleDB) :=
  ⟨(login_invalid_credentials sampleEnv sampleDB { Email := "b@x.com", Password := "secret1" }).1
      rfl (by decide),
   (login_invalid_credentials sampleEnv sampleDB { Email := "a@x.com", Password := "wrong" }).2
      { ID := 1, Email := "a@x.com", Password := "$2a$10$secret1" }
      "hashedPassword is not the hash of the given password" rfl rfl⟩

/-! ## Register followed by Login -/

/-- C2 fails as stated: on the fresh store, the pair of the email a@x.com and
a password of 73 characters is valid (the password has at least 6
characters), bcrypt refuses to hash it, and Register answers 500 `Failed to
hash password` instead of 201, storing nothing. -/
theorem register_long_password_is_500 :
    6 ≤ longPassword.length ∧
    (∀ u ∈ InitDatabase.users, u.Email ≠ "a@x.com") ∧
    Register bcryptLimitEnv InitDatabase
        (.ok { Email := "a@x.com", Password := longPassword }) =
      ({ status := 500, body := errorMap "Failed to hash password" }, InitDatabase) ∧
    (Register bcryptLimitEnv InitDatabase
        (.ok { Email := "a@x.com", Password := longPassword })).1.status ≠ 201 := by
  refine ⟨by decide, by simp [InitDatabase], rfl, ?_⟩
  decide

/-- C2, amended: for every (email, password) pair, valid or not, for which
`HashPassword` returns a hash, and every store that holds no user with that
email, when the insert, the lookup and signing return without error and
`CheckPassword` accepts what `HashPassword` returned, Register answers 201
and a Login with the same credentials on the resulting store answers 200 for
the same user, with a token signed over claims whose `user_id` is the id of
the user Register returned. -/
theorem register_then_login (env₁ env₂ : Env) (db : Database) (req : RegisterRequest)
    (hfresh : ∀ u ∈ db.users, u.Email ≠ req.Email)
    (hhash : ∃ h, HashPassword env₁ req.Password = .ok h)
    (hmodel : ∀ h, HashPassword env₁ req.Password = .ok h →
      CheckPassword env₂ h req.Password = .ok ())
    (hcreate : env₁.createErr = false)
    (hquery : env₂.queryErr = false)
    (hsign₁ : ∀ id, ∃ s, GenerateToken env₁ id = .ok s)
    (hsign₂ : ∀ id, ∃ s, GenerateToken env₂ id = .ok s) :
    ∃ user tok₁ tok₂ claims,
      Register env₁ db (.ok req) =
        ({ status := 201, body := AuthResponse.toJSON { Token := tok₁, User := user } },
         { users := db.users ++ [user] }) ∧
      user.Email = req.Email ∧
      Login env₂ (Register env₁ db (.ok req)).2
          (.ok { Email := req.Email, Password := req.Password }) =
        ({ status := 200, body := AuthResponse.toJSON { Token := tok₂, User := user } },
         (Register env₁ db (.ok req)).2) ∧
      env₂.SignedString (NewWithClaims .HS256 claims) jwtSecret = .ok tok₂ ∧
      claims.lookup "user_id" = some (.uint user.ID) := by
  obtain ⟨h, hh⟩ := hhash
  obtain ⟨e, he⟩ := First_error_of_fresh env₁ hfresh
  obtain ⟨tok₁, ht₁⟩ := hsign₁ (nextID db)
  obtain ⟨tok₂, ht₂⟩ := hsign₂ (nextID db)
  have hc := Create_ok env₁ db { ID := 0, Email := req.Email, Password := h } hcreate hfresh
  have hreg : Register env₁ db (.ok req) =
      ({ status := 201,
         body := AuthResponse.toJSON
           { Token := tok₁, User := { ID := nextID db, Email := req.Email, Password := h } } },
       { users := db.users ++ [{ ID := nextID db, Email := req.Email, Password := h }] }) := by
    simp [Register, he, hh, hc, ht₁]
  have hfirst := First_after_insert env₂ db
    { ID := nextID db, Email := req.Email, Password := h } hquery hfresh
  refine ⟨{ ID := nextID db, Email := req.Email, Password := h }, tok₁, tok₂,
    tokenClaims env₂.now (nextID db), hreg, rfl, ?_, ht₂, ?_⟩
  · rw [hreg]
    have hchk := hmodel h hh
    simp only at hfirst hchk ⊢
    simp [Login, hfirst, hchk, ht₂]
  · simp [tokenClaims, List.lookup]

/-- C2 on the spec's example: registering a@x.com on the empty store and
logging in with the same credentials. -/
theorem register_then_login_witness :
    ∃ user tok₁ tok₂ claims,
      Register sampleEnv InitDatabase (.ok sampleRegister) =
        ({ status := 201, body := AuthResponse.toJSON { Token := tok₁, User := user } },
         { users := InitDatabase.users ++ [user] }) ∧
      user.Email = sampleRegister.Email ∧
      Login sampleEnv (Register sampleEnv InitDatabase (.ok sampleRegister)).2
          (.ok { Email := sampleRegister.Email, Password := sampleRegister.Password }) =
        ({ status := 200, body := AuthResponse.toJSON { Token := tok₂, User := user } },
         (Register sampleEnv InitDatabase (.ok sampleRegister)).2) ∧
      sampleEnv.SignedString (NewWithClaims .HS256 claims) jwtSecret = .ok tok₂ ∧
      claims.lookup "user_id" = some (.uint user.ID) :=
  register_then_login sampleEnv sampleEnv InitDatabase sampleRegister
    (by simp [InitDatabase])
    ⟨"$2a$10$secret1", rfl⟩
    (by
      intro h hh
      have : h = "$2a$10$secret1" := by
        simp [HashPassword, sampleEnv, sampleRegister] at hh
        exact hh.symm
      subst this
      rfl)
    rfl rfl
    (fun _ => ⟨"header.payload.signature", rfl⟩)
    (fun _ => ⟨"header.payload.signature", rfl⟩)

/-! ## Register on an email already in the store -/

/-- C3: for every store that holds a user with the request's email and every
password, Register, its lookup returning, answers 409 `User already exists`
and leaves the store unchanged; and of two successive Register calls with the
same email on any store, the first one hashing and inserting without a
library failure, the second answers 409 and leaves the store unchanged. -/
theorem register_existing_email (env₁ env₂ : Env) (db : Database)
    (req₁ req₂ : RegisterRequest) :
    (env₂.queryErr = false → (∃ u ∈ db.users, u.Email = req₂.Email) →
      Register env₂ db (.ok req₂) =
        ({ status := 409, body := errorMap "User already exists" }, db)) ∧
    (req₁.Email = req₂.Email → (∃ h, HashPassword env₁ req₁.Password = .ok h) →
      env₁.createErr = false → env₂.queryErr = false →
      Register env₂ (Register env₁ db (.ok req₁)).2 (.ok req₂) =
        ({ status := 409, body := errorMap "User already exists" },
         (Register env₁ db (.ok req₁)).2)) := by
  have key : ∀ (d : Database), env₂.queryErr = false → (∃ u ∈ d.users, u.Email = req₂.Email) →
      Register env₂ d (.ok req₂) =
        ({ status := 409, body := errorMap "User already exists" }, d) := by
    intro d hq hex
    obtain ⟨u, hu⟩ := First_found hq hex
    simp [Register, hu]
  refine ⟨key db, ?_⟩
  intro hmail ⟨h, hh⟩ hc hq
  apply key _ hq
  by_cases hex : ∃ u ∈ db.users, u.Email = req₁.Email
  · -- the email is already there: no branch of the first call removes a row
    obtain ⟨u, hu, hue⟩ := hex
    refine ⟨u, ?_, hue.trans hmail⟩
    cases hf : First env₁ db req₁.Email with
    | ok v => simpa [Register, hf] using hu
    | error e =>
      have hdup : Create env₁ db { ID := 0, Email := req₁.Email, Password := h } =
          .error .ErrDuplicatedKey := by
        have hany : (db.users.any fun w => w.Email == req₁.Email) = true := by
          simp only [List.any_eq_true, beq_iff_eq]
          exact ⟨u, hu, hue⟩
        simp [Create, hc, hany]
      simpa [Register, hf, hh, hdup] using hu
  · -- the email is new: the first call inserts it
    have hfresh : ∀ u ∈ db.users, u.Email ≠ req₁.Email := by
      intro u hu hue
      exact hex ⟨u, hu, hue⟩
    obtain ⟨e, he⟩ := First_error_of_fresh env₁ hfresh
    have hcr := Create_ok env₁ db { ID := 0, Email := req₁.Email, Password := h } hc hfresh
    refine ⟨{ ID := nextID db, Email := req₁.Email, Password := h }, ?_, hmail⟩
    cases ht : GenerateToken env₁ (nextID db) with
    | ok tok => simp [Register, he, hh, hcr, ht]
    | error err => simp [Register, he, hh, hcr, ht]

/-- C3 on the one-user store, with a password other than the original, and
for two successive registrations on the empty store. -/
theorem register_existing_email_witness :
    Register sampleEnv sampleDB (.ok { Email := "a@x.com", Password := "another" }) =
        ({ status := 409, body := errorMap "User already exists" }, sampleDB) ∧
    Register sampleEnv (Register sampleEnv InitDatabase (.ok sampleRegister)).2
        (.ok { Email := "a@x.com", Password := "another" }) =
      ({ status := 409, body := errorMap "User already exists" },
       (Register sampleEnv InitDatabase (.ok sampleRegister)).2) :=
  ⟨(register_existing_email sampleEnv sampleEnv sampleDB sampleRegister
      { Email := "a@x.com", Password := "another" }).1 rfl
      ⟨{ ID := 1, Email := "a@x.com", Password := "$2a$10$secret1" }, by simp [sampleDB], rfl⟩,
   (register_existing_email sampleEnv sampleEnv InitDatabase sampleRegister
      { Email := "a@x.com", Password := "another" }).2 rfl ⟨"$2a$10$secret1", rfl⟩ rfl rfl⟩

/-! ## Response bodies -/

/-- C4: the encoding of an `AuthResponse` does not depend on the `Password`
of the user it carries and consists of the fields `token`, `user.id` and
`user.email` only; and the body of every response of Register and of Login is
either such an encoding or an error map holding one of the fixed messages. -/
theorem password_not_serialized :
    (∀ (r : AuthResponse) (p : String),
      AuthResponse.toJSON { r with User := { r.User with Password := p } } =
        AuthResponse.toJSON r) ∧
    (∀ r : AuthResponse,
      AuthResponse.toJSON r =
        .obj [("token", .str r.Token),
              ("user", .obj [("id", .num r.User.ID), ("email", .str r.User.Email)])]) ∧
    (∀ (env : Env) (db : Database) (body : Except String RegisterRequest),
      (∃ msg ∈ ["Invalid request body", "User already exists", "Failed to hash password",
          "Failed to create user", "Failed to generate token"],
        (Register env db body).1.body = errorMap msg) ∨
      ∃ r, (Register env db body).1.body = AuthResponse.toJSON r) ∧
    (∀ (env : Env) (db : Database) (body : Except String LoginRequest),
      (∃ msg ∈ ["Invalid request body", "Invalid credentials", "Database error",
          "Failed to generate token"],
        (Login env db body).1.body = errorMap msg) ∨
      ∃ r, (Login env db body).1.body = AuthResponse.toJSON r) := by
  refine ⟨fun r p => rfl, fun r => rfl, ?_, ?_⟩
  · intro env db body
    cases body with
    | error e => exact Or.inl ⟨_, by simp, rfl⟩
    | ok req =>
      cases hf : First env db req.Email with
      | ok u => exact Or.inl ⟨"User already exists", by simp, by simp [Register, hf]⟩
      | error e =>
        cases hh : HashPassword env req.Password with
        | error e₁ => exact Or.inl ⟨"Failed to hash password", by simp, by simp [Register, hf, hh]⟩
        | ok h =>
          cases hc : Create env db { ID := 0, Email := req.Email, Password := h } with
          | error e₂ =>
            exact Or.inl ⟨"Failed to create user", by simp, by simp [Register, hf, hh, hc]⟩
          | ok res =>
            obtain ⟨user, db'⟩ := res
            cases ht : GenerateToken env user.ID with
            | error e₃ =>
              exact Or.inl ⟨"Failed to generate token", by simp,
                by simp [Register, hf, hh, hc, ht]⟩
            | ok tok =>
              exact Or.inr ⟨{ Token := tok, User := user }, by simp [Register, hf, hh, hc, ht]⟩
  · intro env db body
    cases body with
    | error e => exact Or.inl ⟨_, by simp, rfl⟩
    | ok req =>
      cases hf : First env db req.Email with
      | error e =>
        by_cases he : e = .ErrRecordNotFound
        · exact Or.inl ⟨"Invalid credentials", by simp, by simp [Login, hf, he]⟩
        · exact Or.inl ⟨"Database error", by simp, by simp [Login, hf, he]⟩
      | ok user =>
        cases hc : CheckPassword env user.Password req.Password with
        | error e₁ => exact Or.inl ⟨"Invalid credentials", by simp, by simp [Login, hf, hc]⟩
        | ok _ =>
          cases ht : GenerateToken env user.ID with
          | error e₂ =>
            exact Or.inl ⟨"Failed to generate token", by simp, by simp [Login, hf, hc, ht]⟩
          | ok tok =>
            exact Or.inr ⟨{ Token := tok, User := user }, by simp [Login, hf, hc, ht]⟩

/-! ## Requests that the `validate` tags exclude -/

/-- C5, as the code behaves: once the body parses neither handler answers
400, whatever the email and the password; on the fresh store Register with
the email `not-an-email` and the three-character password `123` answers 201
and stores the row, and Login with an empty email and an empty password
consults the store and answers 401. -/
theorem unvalidated_request_accepted :
    (∀ (env : Env) (db : Database) (req : RegisterRequest),
      (Register env db (.ok req)).1.status ≠ 400) ∧
    (∀ (env : Env) (db : Database) (req : LoginRequest),
      (Login env db (.ok req)).1.status ≠ 400) ∧
    "123".length < 6 ∧
    Register sampleEnv InitDatabase (.ok { Email := "not-an-email", Password := "123" }) =
      ({ status := 201,
         body := AuthResponse.toJSON
           { Token := "header.payload.signature",
             User := { ID := 1, Email := "not-an-email", Password := "$2a$10$123" } } },
       { users := [{ ID := 1, Email := "not-an-email", Password := "$2a$10$123" }] }) ∧
    Login sampleEnv InitDatabase (.ok { Email := "", Password := "" }) =
      ({ status := 401, body := errorMap "Invalid credentials" }, InitDatabase) := by
  refine ⟨?_, ?_, by decide, rfl, rfl⟩
  · intro env db req
    cases hf : First env db req.Email with
    | ok u => simp [Register, hf]
    | error e =>
      cases hh : HashPassword env req.Password with
      | error e₁ => simp [Register, hf, hh]
      | ok h =>
        cases hc : Create env db { ID := 0, Email := req.Email, Password := h } with
        | error e₂ => simp [Register, hf, hh, hc]
        | ok res =>
          obtain ⟨user, db'⟩ := res
          cases ht : GenerateToken env user.ID with
          | error e₃ => simp [Register, hf, hh, hc, ht]
          | ok tok => simp [Register, hf, hh, hc, ht]
  · intro env db req
    cases hf : First env db req.Email with
    | error e =>
      by_cases he : e = .ErrRecordNotFound
      · simp [Login, hf, he]
      · simp [Login, hf, he]
    | ok user =>
      cases hc : CheckPassword env user.Password req.Password with
      | error e₁ => simp [Login, hf, hc]
      | ok _ =>
        cases ht : GenerateToken env user.ID with
        | error e₂ => simp [Login, hf, hc, ht]
        | ok tok => simp [Login, hf, hc, ht]

/-! ## Effect of Register on the store -/

/-- C6 fails as stated: on the fresh store, with a signer that returns an
error, Register answers 500 `Failed to generate token` and the store holds
the row it inserted before signing. -/
theorem register_token_failure_keeps_row :
    Register signFailEnv InitDatabase (.ok sampleRegister) =
      ({ status := 500, body := errorMap "Failed to generate token" },
       { users := [{ ID := 1, Email := "a@x.com", Password := "$2a$10$secret1" }] }) ∧
    (Register signFailEnv InitDatabase (.ok sampleRegister)).2 ≠ InitDatabase := by
  refine ⟨rfl, ?_⟩
  decide

/-- C6, amended: when Register answers 201 the resulting store is the old
one plus exactly one row, whose email is the request's and whose password
field is what `HashPassword` returned for the request's password; on every
failure other than `Failed to generate token` (400, 409, failed hashing,
failed insert) the resulting store is the old one; on `Failed to generate
token` the store is the old one plus that same one row. -/
theorem register_store_effect (env : Env) (db : Database)
    (body : Except String RegisterRequest) :
    ((Register env db body).1.status = 201 →
      ∃ req h, body = .ok req ∧ HashPassword env req.Password = .ok h ∧
        (Register env db body).2 =
          { users := db.users ++ [{ ID := nextID db, Email := req.Email, Password := h }] }) ∧
    ((Register env db body).1.status ≠ 201 →
      (Register env db body).1.body ≠ errorMap "Failed to generate token" →
      (Register env db body).2 = db) ∧
    ((Register env db body).1.body = errorMap "Failed to generate token" →
      ∃ req h, body = .ok req ∧ HashPassword env req.Password = .ok h ∧
        (Register env db body).2 =
          { users := db.users ++ [{ ID := nextID db, Email := req.Email, Password := h }] }) := by
  cases body with
  | error e => simp [Register, errorMap]
  | ok req =>
    cases hf : First env db req.Email with
    | ok u => simp [Register, hf, errorMap]
    | error e =>
      cases hh : HashPassword env req.Password with
      | error e₁ => simp [Register, hf, hh, errorMap]
      | ok h =>
        rcases Create_cases env db { ID := 0, Email := req.Email, Password := h } with
          ⟨e₂, hc⟩ | ⟨_, hc⟩
        · simp [Register, hf, hh, hc, errorMap]
        · cases ht : GenerateToken env (nextID db) with
          | error e₃ => simp [Register, hf, hh, hc, ht, errorMap]
          | ok tok => simp [Register, hf, hh, hc, ht, errorMap, AuthResponse.toJSON]

/-- C6, amended, at concrete inputs: a successful registration on the fresh
store, a duplicate on the one-user store, and the token failure on the fresh
store. -/
theorem register_store_effect_witness :
    (∃ req h, (Except.ok sampleRegister : Except String RegisterRequest) = .ok req ∧
      HashPassword sampleEnv req.Password = .ok h ∧
      (Register sampleEnv InitDatabase (.ok sampleRegister)).2 =
        { users := InitDatabase.users ++
            [{ ID := nextID InitDatabase, Email := req.Email, Password := h }] }) ∧
    (Register sampleEnv sampleDB (.ok sampleRegister)).2 = sampleDB ∧
    (∃ req h, (Except.ok sampleRegister : Except String RegisterRequest) = .ok req ∧
      HashPassword signFailEnv req.Password = .ok h ∧
      (Register signFailEnv InitDatabase (.ok sampleRegister)).2 =
        { users := InitDatabase.users ++
            [{ ID := nextID InitDatabase, Email := req.Email, Password := h }] }) :=
  ⟨(register_store_effect sampleEnv InitDatabase (.ok sampleRegister)).1 rfl,
   (register_store_effect sampleEnv sampleDB (.ok sampleRegister)).2.1
      (by decide) (by simp [Register, First, sampleEnv, sampleDB, sampleRegister, firstByID, errorMap]),
   (register_store_effect signFailEnv InitDatabase (.ok sampleRegister)).2.2 rfl⟩

/-! ## Uniqueness of emails -/

theorem Register_store_cases (env : Env) (db : Database)
    (body : Except String RegisterRequest) :
    (Register env db body).2 = db ∨
    ∃ user, (∀ u ∈ db.users, u.Email ≠ user.Email) ∧
      (Register env db body).2 = { users := db.users ++ [user] } := by
  cases body with
  | error e => exact Or.inl rfl
  | ok req =>
    cases hf : First env db req.Email with
    | ok u => exact Or.inl (by simp [Register, hf])
    | error e =>
      cases hh : HashPassword env req.Password with
      | error e₁ => exact Or.inl (by simp [Register, hf, hh])
      | ok h =>
        rcases Create_cases env db { ID := 0, Email := req.Email, Password := h } with
          ⟨e₂, hc⟩ | ⟨hno, hc⟩
        · exact Or.inl (by simp [Register, hf, hh, hc])
        · refine Or.inr ⟨{ ID := nextID db, Email := req.Email, Password := h }, hno, ?_⟩
          cases ht : GenerateToken env (nextID db) with
          | error e₃ => simp [Register, hf, hh, hc, ht]
          | ok tok => simp [Register, hf, hh, hc, ht]

theorem Login_store (env : Env) (db : Database) (body : Except String LoginRequest) :
    (Login env db body).2 = db := by
  cases body with
  | error e => rfl
  | ok req =>
    cases hf : First env db req.Email with
    | error e =>
      by_cases he : e = .ErrRecordNotFound
      · simp [Login, hf, he]
      · simp [Login, hf, he]
    | ok user =>
      cases hc : CheckPassword env user.Password req.Password with
      | error e₁ => simp [Login, hf, hc]
      | ok _ =>
        cases ht : GenerateToken env user.ID with
        | error e₂ => simp [Login, hf, hc, ht]
        | ok tok => simp [Login, hf, hc, ht]

theorem Register_preserves_unique (env : Env) (db : Database)
    (body : Except String RegisterRequest) (h : UniqueEmails db) :
    UniqueEmails (Register env db body).2 := by
  rcases Register_store_cases env db body with heq | ⟨user, hno, heq⟩
  · rw [heq]
    exact h
  · rw [heq]
    unfold UniqueEmails at h ⊢
    simp only [List.map_append, List.map_cons, List.map_nil]
    refine List.Nodup.append h (List.nodup_singleton _) ?_
    intro e he hs
    simp only [List.mem_singleton] at hs
    simp only [List.mem_map] at he
    obtain ⟨u, hu, hue⟩ := he
    exact hno u hu (hue.trans hs)

/-- C7: uniqueness of emails is an invariant of the store: a call of Register
or of Login, on any request and with any outcome, takes a store without
shared emails to a store without shared emails, so every store reachable
from the fresh one has none. -/
theorem unique_emails_invariant :
    (∀ (env : Env) (db : Database) (body : Except String RegisterRequest),
      UniqueEmails db → UniqueEmails (Register env db body).2) ∧
    (∀ (env : Env) (db : Database) (body : Except String LoginRequest),
      UniqueEmails db → UniqueEmails (Login env db body).2) ∧
    (∀ db : Database, Reachable db → UniqueEmails db) := by
  refine ⟨Register_preserves_unique, ?_, ?_⟩
  · intro env db body h
    rw [Login_store]
    exact h
  · intro db hr
    induction hr with
    | init => simp [UniqueEmails, InitDatabase]
    | register env body _ ih => exact Register_preserves_unique env _ body ih
    | login env body _ ih =>
      rw [Login_store]
      exact ih

/-- C7 at a concrete input: the one-user store has no shared email, and
neither has the store after registering a second user on it. -/
theorem unique_emails_invariant_witness :
    UniqueEmails sampleDB ∧
    UniqueEmails
      (Register sampleEnv sampleDB (.ok { Email := "b@x.com", Password := "secret2" })).2 :=
  ⟨by decide,
   unique_emails_invariant.1 sampleEnv sampleDB
     (.ok { Email := "b@x.com", Password := "secret2" }) (by decide)⟩

/-! ## Token issuance -/

theorem Time_Unix_Add_72h (now : Int) :
    Time.Unix (Time.Add now (Hour * 72)) = Time.Unix now + 259200 := by
  unfold Time.Unix Time.Add Hour
  omega

/-- C9: for every user id and every clock reading, `GenerateToken` signs,
with HS256 and under `jwtSecret`, a claim set of exactly two entries:
`user_id`, the id, and `exp`, the clock's Unix seconds plus 259200; and the
token in a 201 of Register or a 200 of Login is what `GenerateToken` returns
for the id of the user in the same body. -/
theorem token_issuance :
    (∀ (env : Env) (userID : Nat),
      GenerateToken env userID =
        env.SignedString
          { Method := .HS256,
            Claims := [("user_id", .uint userID),
                       ("exp", .int64 (Time.Unix env.now + 259200))] }
          jwtSecret) ∧
    (∀ (env : Env) (db : Database) (body : Except String RegisterRequest),
      (Register env db body).1.status = 201 →
      ∃ tok user, (Register env db body).1.body =
          AuthResponse.toJSON { Token := tok, User := user } ∧
        GenerateToken env user.ID = .ok tok) ∧
    (∀ (env : Env) (db : Database) (body : Except String LoginRequest),
      (Login env db body).1.status = 200 →
      ∃ tok user, (Login env db body).1.body =
          AuthResponse.toJSON { Token := tok, User := user } ∧
        GenerateToken env user.ID = .ok tok) := by
  refine ⟨?_, ?_, ?_⟩
  · intro env userID
    simp [GenerateToken, tokenClaims, NewWithClaims, Time_Unix_Add_72h]
  · intro env db body
    cases body with
    | error e => simp [Register]
    | ok req =>
      cases hf : First env db req.Email with
      | ok u => simp [Register, hf]
      | error e =>
        cases hh : HashPassword env req.Password with
        | error e₁ => simp [Register, hf, hh]
        | ok h =>
          cases hc : Create env db { ID := 0, Email := req.Email, Password := h } with
          | error e₂ => simp [Register, hf, hh, hc]
          | ok res =>
            obtain ⟨user, db'⟩ := res
            cases ht : GenerateToken env user.ID with
            | error e₃ => simp [Register, hf, hh, hc, ht]
            | ok tok =>
              intro _
              exact ⟨tok, user, by simp [Register, hf, hh, hc, ht], ht⟩
  · intro env db body
    cases body with
    | error e => simp [Login]
    | ok req =>
      cases hf : First env db req.Email with
      | error e =>
        by_cases he : e = .ErrRecordNotFound
        · simp [Login, hf, he]
        · simp [Login, hf, he]
      | ok user =>
        cases hc : CheckPassword env user.Password req.Password with
        | error e₁ => simp [Login, hf, hc]
        | ok _ =>
          cases ht : GenerateToken env user.ID with
          | error e₂ => simp [Login, hf, hc, ht]
          | ok tok =>
            intro _
            exact ⟨tok, user, by simp [Login, hf, hc, ht], ht⟩

/-- C9 at a concrete input: the 201 of a registration on the fresh store and
the 200 of a login on the one-user store. -/
theorem token_issuance_witness :
    (∃ tok user, (Register sampleEnv InitDatabase (.ok sampleRegister)).1.body =
        AuthResponse.toJSON { Token := tok, User := user } ∧
      GenerateToken sampleEnv user.ID = .ok tok) ∧
    (∃ tok user,
      (Login sampleEnv sampleDB (.ok { Email := "a@x.com", Password := "secret1" })).1.body =
        AuthResponse.toJSON { Token := tok, User := user } ∧
      GenerateToken sampleEnv user.ID = .ok tok) :=
  ⟨token_issuance.2.1 sampleEnv InitDatabase (.ok sampleRegister) rfl,
   token_issuance.2.2 sampleEnv sampleDB (.ok { Email := "a@x.com", Password := "secret1" }) rfl⟩

/-! ## A duplicate reported by the insert -/

/-- C10 fails as stated: on the one-user store, with a lookup that comes
back with a driver error instead of the existing record, the insert reports
the duplicate email and Register answers 500 `Failed to create user`, not 409. -/
theorem register_duplicate_at_create_is_500 :
    Create queryFailEnv sampleDB
        { ID := 0, Email := "a@x.com", Password := "$2a$10$secret1" } =
      .error .ErrDuplicatedKey ∧
    Register queryFailEnv sampleDB (.ok sampleRegister) =
      ({ status := 500, body := errorMap "Failed to create user" }, sampleDB) ∧
    (Register queryFailEnv sampleDB (.ok sampleRegister)).1.status ≠ 409 := by
  refine ⟨rfl, rfl, ?_⟩
  decide

/-- C10, amended: for every Register request whose insert reports a
duplicate email (the lookup before it not having returned a record), Register
answers the internal failure 500 `Failed to create user`, and no row is
added. -/
theorem register_duplicate_at_create (env : Env) (db : Database) (req : RegisterRequest)
    (e : DBError) (h : String)
    (hlookup : First env db req.Email = .error e)
    (hhash : HashPassword env req.Password = .ok h)
    (hdup : Create env db { ID := 0, Email := req.Email, Password := h } =
      .error .ErrDuplicatedKey) :
    Register env db (.ok req) =
      ({ status := 500, body := errorMap "Failed to create user" }, db) := by
  simp [Register, hlookup, hhash, hdup]

/-- C10, amended, on the one-user store with a failing lookup. -/
theorem register_duplicate_at_create_witness :
    Register queryFailEnv sampleDB (.ok sampleRegister) =
      ({ status := 500, body := errorMap "Failed to create user" }, sampleDB) :=
  register_duplicate_at_create queryFailEnv sampleDB sampleRegister .ErrDriver
    "$2a$10$secret1" rfl rfl rfl

/-! ## Token verification -/

/-- C8: for every user id and every issuance time, a token `GenerateToken`
returns, which the verifier decodes to the method and claims it was built
from and whose signature checks under `jwtSecret`, is accepted by
`verifyToken` at the issuance time with that user id, and is rejected as
expired at every time whose Unix seconds exceed the issuance seconds plus
259200; `verifyToken` also rejects every token whose signature does not
check and every token whose algorithm is not HS256. -/
theorem issued_token_verifies (env : Env) (v : Verifier) (userID : Nat) (tok : String)
    (hissued : GenerateToken env userID = .ok tok)
    (hparse : v.Parse tok = some (NewWithClaims .HS256 (tokenClaims env.now userID)))
    (hsig : v.Verify tok jwtSecret = true) :
    verifyToken v jwtSecret env.now tok = .ok userID ∧
    (∀ later : Int, Time.Unix env.now + 259200 < Time.Unix later →
      verifyToken v jwtSecret later tok = .error .Expired) ∧
    (∀ (now : Int) (t : String), v.Verify t jwtSecret = false →
      verifyToken v jwtSecret now t = .error .Invalid) ∧
    (∀ (now : Int) (t : String) (parsed : Token), v.Parse t = some parsed →
      parsed.Method ≠ .HS256 → verifyToken v jwtSecret now t = .error .Invalid) := by
  have hexp := Time_Unix_Add_72h env.now
  have _ := hissued
  refine ⟨?_, ?_, ?_, ?_⟩
  · simp only [verifyToken, hparse, NewWithClaims, tokenClaims, hsig, List.lookup, hexp]
    have : ¬ (Time.Unix env.now + 259200 < Time.Unix env.now) := by omega
    simp [this]
  · intro later hlater
    simp only [verifyToken, hparse, NewWithClaims, tokenClaims, hsig, List.lookup, hexp]
    simp [hlater]
  · intro now t hbad
    unfold verifyToken
    cases hp : v.Parse t with
    | none => rfl
    | some parsed =>
      by_cases hm : parsed.Method = .HS256
      · simp [hm, hbad]
      · simp [hm]
  · intro now t parsed hp hm
    simp [verifyToken, hp, hm]

/-- C8 at a concrete input: the token `sampleEnv` issues for user 1. -/
theorem issued_token_verifies_witness :
    verifyToken sampleVerifier jwtSecret sampleEnv.now "header.payload.signature" = .ok 1 ∧
    (∀ later : Int, Time.Unix sampleEnv.now + 259200 < Time.Unix later →
      verifyToken sampleVerifier jwtSecret later "header.payload.signature" =
        .error .Expired) :=
  ⟨(issued_token_verifies sampleEnv sampleVerifier 1 "header.payload.signature"
      rfl rfl rfl).1,
   (issued_token_verifies sampleEnv sampleVerifier 1 "header.payload.signature"
      rfl rfl rfl).2.1⟩

end AuthBackend
